import Mathlib

/-
Verification development for the production-deployment repository.

The definitions below are a shallow embedding of the Python sources:
  * src/healthcare-agent-gke-autopilot/backend/load_testing/mock_llm_server.py
  * src/simulated-scale/mock_ai_server.py
  * src/simulated-scale/locust_load_test.py
  * src/healthcare-agent-gke-autopilot/load_testing/locust_load_test.py

Modelling conventions:
  * Python JSON values are modelled by the inductive `MockJson`; Python ints by
    `Int` (`MockJson.int`), Python float literals by `Rat` (`MockJson.num`).
  * `dict.get(k)` becomes `Option`; `dict.get(k, d)` becomes `Option.getD`.
  * A handler that can raise an uncaught exception (HTTP 500) is modelled with
    `Except Unit`, where `Except.error ()` is the propagated exception.
  * Wall-clock sleeps, random latency draws, logging and usage-metadata
    counters are irrelevant to the claims and are not part of the state that
    the modelled functions compute.
-/

namespace ProdDeploy

/-- JSON-like values produced by the mock servers.  `int` models a Python int,
`num` models a Python float literal (kept exact as a rational). -/
inductive MockJson where
  | null : MockJson
  | bool : Bool → MockJson
  | int : Int → MockJson
  | num : Rat → MockJson
  | str : String → MockJson
  | arr : List MockJson → MockJson
  | obj : List (String × MockJson) → MockJson
deriving Repr

/-- `subOccurs pat hay` is Python `pat in hay` on lists of characters:
true iff `pat` occurs as a contiguous substring of `hay`. -/
def subOccurs (pat : List Char) : List Char → Bool
  | [] => pat.isEmpty
  | c :: t => pat.isPrefixOf (c :: t) || subOccurs pat t

/-- Python `pat in s` for strings (substring containment). -/
def strContains (s pat : String) : Bool :=
  subOccurs pat.toList s.toList

/-- Auxiliary scanner for `pySplit` (accumulates the current word reversed). -/
def splitWordsAux : List Char → List Char → List String
  | [], acc => if acc.isEmpty then [] else [String.mk acc.reverse]
  | c :: t, acc =>
    if c = ' ' then
      if acc.isEmpty then splitWordsAux t []
      else String.mk acc.reverse :: splitWordsAux t []
    else splitWordsAux t (c :: acc)

/-- Python `str.split()` restricted to the space character: splits on runs of
spaces and drops empty fragments (the strings in the source contain no other
whitespace). -/
def pySplit (s : String) : List String :=
  splitWordsAux s.toList []

/-- Python `str.upper()` for the ASCII strings the server handles. -/
def pyUpper (s : String) : String := String.mk (s.toList.map Char.toUpper)

/-- Python `str.lower()` for the ASCII strings the server handles. -/
def pyLower (s : String) : String := String.mk (s.toList.map Char.toLower)

/-- A JSON-schema-like dict as consumed by `generate_mock_from_schema`:
each field models the presence/absence of the corresponding dict key
(`type`, `properties`, `items`, `enum`, `title`). -/
inductive SchemaDict where
  | mk : Option String → Option (List (String × SchemaDict)) →
         Option SchemaDict → Option (List String) → Option String → SchemaDict

/-- The `"type"` key of the schema dict. -/
def SchemaDict.type? : SchemaDict → Option String
  | .mk t _ _ _ _ => t

/-- The `"properties"` key of the schema dict (ordered, as Python dicts are). -/
def SchemaDict.properties : SchemaDict → Option (List (String × SchemaDict))
  | .mk _ p _ _ _ => p

/-- The `"items"` key of the schema dict. -/
def SchemaDict.items : SchemaDict → Option SchemaDict
  | .mk _ _ i _ _ => i

/-- The `"enum"` key of the schema dict. -/
def SchemaDict.enum? : SchemaDict → Option (List String)
  | .mk _ _ _ e _ => e

/-- The `"title"` key of the schema dict. -/
def SchemaDict.title? : SchemaDict → Option String
  | .mk _ _ _ _ t => t

/-- The empty dict `{}`. -/
def SchemaDict.empty : SchemaDict := .mk none none none none none

/-- Python falsiness of the schema dict (`if not schema`): true iff no modelled
key is present. -/
def SchemaDict.isEmpty : SchemaDict → Bool
  | .mk t p i e ti => t.isNone && p.isNone && i.isNone && e.isNone && ti.isNone

mutual

/-- mock_llm_server.generate_mock_from_schema (lines 603-636): recursively
generate mock data from a JSON schema.  The Python dispatch on
`schema.get("type", "OBJECT").upper()` is an if/elif chain of equality tests
against the six literals.  Returns `none` exactly when the Python code would
raise (`schema["enum"][0]` on an empty enum list). -/
def generate_mock_from_schema : SchemaDict → Option MockJson
  | .mk t? props? items? enum? title? =>
    if (SchemaDict.mk t? props? items? enum? title?).isEmpty then some (.obj [])
    else if pyUpper (t?.getD "OBJECT") = "OBJECT" then
      match props? with
      | some props => (genMockProps props).map MockJson.obj
      | none =>
          -- schema.get("properties", {}) is the empty dict: no keys.
          some (.obj [])
    else if pyUpper (t?.getD "OBJECT") = "ARRAY" then
      match items? with
      | some it => (generate_mock_from_schema it).map (fun v => MockJson.arr [v])
      | none =>
          -- schema.get("items", {}) is the empty dict, and the recursive
          -- call on the empty dict returns {} by the falsiness guard above.
          some (MockJson.arr [MockJson.obj []])
    else if pyUpper (t?.getD "OBJECT") = "STRING" then
      match enum? with
      | some [] => none   -- schema["enum"][0] raises IndexError
      | some (e :: _) => some (.str e)
      | none => some (.str "mock_string")
    else if pyUpper (t?.getD "OBJECT") = "BOOLEAN" then some (.bool false)
    else if pyUpper (t?.getD "OBJECT") = "INTEGER" then some (.int 1)
    else if pyUpper (t?.getD "OBJECT") = "NUMBER" then some (.num 1)
    else some .null       -- the Python function falls through and returns None
termination_by structural s => s

/-- Recurse into every declared property, in declaration order (an exception
raised inside any property propagates). -/
def genMockProps : List (String × SchemaDict) → Option (List (String × MockJson))
  | [] => some []
  | (k, s) :: rest =>
      match generate_mock_from_schema s, genMockProps rest with
      | some v, some vs => some ((k, v) :: vs)
      | _, _ => none
termination_by structural l => l

end

/-! ### Streaming generation (mock_llm_server.generate_streaming_response, lines 57-101) -/

/-- The fixed mock response text assembled at lines 71-73. -/
def mock_response : String :=
  "I understand your request. Let me help you with that. " ++
  "Based on the information provided, here is my response. " ++
  "Please let me know if you need any clarification."

/-- One streamed SSE chunk (the fields of the JSON object built at lines
79-93 that vary per chunk; `index` is the constant candidate index). -/
structure StreamChunk where
  text : String
  finishReason : Option String
  index : Nat
  candidatesTokenCount : Nat
deriving Repr, DecidableEq

/-- One line of the SSE stream: either a `data: {chunk}` line or the distinct
terminator line `data: [DONE]`. -/
inductive StreamEvent where
  | chunk : StreamChunk → StreamEvent
  | done : StreamEvent
deriving Repr, DecidableEq

/-- The chunks emitted by the loop at lines 77-98: one chunk per word of
`words[:TOKEN_COUNT]`, where `finishReason` is `None if i < len(words) - 1
else "STOP"` (line 85). -/
def stream_chunks (tokenCount : Nat) : List StreamChunk :=
  let words := pySplit mock_response
  (words.take tokenCount).enum.map (fun p =>
    { text := p.2 ++ " ",
      finishReason := if p.1 < words.length - 1 then none else some "STOP",
      index := 0,
      candidatesTokenCount := p.1 + 1 })

/-- The full emitted stream: every chunk in order, then the terminator line
`data: [DONE]` (line 101). -/
def generate_streaming_response (tokenCount : Nat) : List StreamEvent :=
  (stream_chunks tokenCount).map StreamEvent.chunk ++ [StreamEvent.done]

/-! ### Non-streaming generation (mock_llm_server.generate_content, lines 123-485)

Requests reach the endpoint as a pydantic `GeminiRequest` whose `tools`,
`contents` and `generationConfig` members contain plain Python dicts, so the
dict branches of the source's dict-vs-model checks are the live ones. -/

/-- One function declaration dict inside a tool (`name`, `parameters` keys). -/
structure FunctionDecl where
  name : Option String
  parameters : Option SchemaDict

/-- One tool dict (`functionDeclarations` key, absent key modelled by `[]`
since the source uses `tool.get("functionDeclarations", [])`). -/
structure GeminiTool where
  functionDeclarations : List FunctionDecl

/-- One part dict of a content; `part.get("text", "")` is modelled by storing
the text directly (absent key = `""`). -/
structure MsgPart where
  text : String

/-- One content dict (`parts` key, absent modelled by `[]`). -/
structure MsgContent where
  parts : List MsgPart

/-- The request `generationConfig` dict (the two keys the source reads). -/
structure GenerationConfig where
  responseMimeType : String
  responseSchema : Option SchemaDict

/-- The parts of a `GeminiRequest` that `generate_content` reads. -/
structure GeminiRequest where
  contents : List MsgContent
  generationConfig : GenerationConfig
  tools : List GeminiTool

/-- A part of the synthesized candidate: a plain text part, a text part
holding the JSON serialization of a synthesized document, or a function
call. -/
inductive GenPart where
  | text : String → GenPart
  | jsonText : MockJson → GenPart
  | functionCall : String → MockJson → GenPart
deriving Repr

/-- The synthesized response (single candidate, single part in every branch
of the source; role/index/usage counters are constants and omitted). -/
structure GenResponse where
  parts : List GenPart
  finishReason : String
deriving Repr

/-- Flattening of every tool's `functionDeclarations` (lines 137-147). -/
def flatten_declarations (tools : List GeminiTool) : List FunctionDecl :=
  tools.foldr (fun t acc => t.functionDeclarations ++ acc) []

/-- Inner args for the `is_continuous` case of `log_data` (lines 213-216). -/
def inner_continuous : MockJson :=
  .obj [("rationale", .str "Greeting is polite"), ("is_continuous", .bool true)]

/-- Inner args for the `is_customer_dependent` case (lines 219-224), also the
args of the `CustomerDependent` heuristic (lines 179-184). -/
def inner_customer_dependent : MockJson :=
  .obj [("action", .str "reply"), ("is_customer_dependent", .bool false),
        ("customer_action", .null), ("agent_action", .null)]

/-- Inner args for the `is_agent_intention` case (lines 227-230). -/
def inner_agent_intention : MockJson :=
  .obj [("condition", .str "The user wants to schedule an appointment"),
        ("is_agent_intention", .bool true)]

/-- Inner args for the `is_tool_running_only` case (lines 233-237). -/
def inner_tool_running : MockJson :=
  .obj [("action", .str "Use the tool"),
        ("rationale", .str "The user request requires a tool"),
        ("is_tool_running_only", .bool true)]

/-- Inner args for the `actions` case (lines 240-250). -/
def inner_actions : MockJson :=
  .obj [("actions", .arr [
    .obj [("index", .str "1"), ("conditions", .arr [.str "Always"]),
          ("action", .str "Do something"),
          ("needs_rewrite_rationale", .str "No need"),
          ("needs_rewrite", .bool false)]])]

/-- Inner args for the `step_action` case (lines 253-256). -/
def inner_step_action : MockJson :=
  .obj [("step_action", .str "Do something"),
        ("step_action_completed", .str "true")]

/-- Args for the `Guideline` heuristic (lines 187-196). -/
def guideline_args : MockJson :=
  .obj [("propositions", .arr [
    .obj [("condition", .str "always"), ("action", .str "reply with a greeting"),
          ("rationale", .str "Greeting is polite"), ("is_continuous", .bool true)]])]

/-- Python `key in props` on the (ordered) properties dict. -/
def hasKey (props : List (String × SchemaDict)) (k : String) : Bool :=
  (props.lookup k).isSome

/-- The key-dispatch of the `log_data` branch (lines 212-257): the if/elif
chain on the keys of `check_props`, selecting the inner args.  `none` means
no key matched (Python `args` stays `{}`). -/
def log_data_dispatch (check_props : List (String × SchemaDict)) : Option MockJson :=
  if hasKey check_props "is_continuous" then some inner_continuous
  else if hasKey check_props "is_customer_dependent" then
    some inner_customer_dependent
  else if hasKey check_props "is_agent_intention" then
    some inner_agent_intention
  else if hasKey check_props "is_tool_running_only" then
    some inner_tool_running
  else if hasKey check_props "actions" then some inner_actions
  else if hasKey check_props "step_action" then some inner_step_action
  else none

/-- The `log_data` branch of the args heuristic (lines 197-257): when the
properties carry a `log_data` wrapper, dispatch on the wrapped properties and
re-wrap the chosen inner args as `{"log_data": inner}` (`is_wrapped`);
otherwise dispatch on the properties directly. -/
def log_data_args (props : List (String × SchemaDict)) : Option MockJson :=
  match props.lookup "log_data" with
  | some p =>
      (log_data_dispatch ((p.properties).getD [])).map
        (fun inner => MockJson.obj [("log_data", inner)])
  | none => log_data_dispatch props

/-- The function-call args heuristic chain (lines 162-259), as a partial
selection: `none` means no heuristic fired and Python `args` is still the
empty dict. -/
def tool_call_args_heuristic (fn : String) (props : List (String × SchemaDict)) :
    Option MockJson :=
  if strContains fn "CustomerDependent" then some inner_customer_dependent
  else if strContains fn "Guideline" then some guideline_args
  else if fn = "log_data" then log_data_args props
  else if strContains fn "Coherence" then
    some (.obj [("is_coherent", .bool true)])
  else none

/-- The synthesized function-call args: every heuristic value is a non-empty
dict, and the `if not args` fallback (lines 262-263) fills in the fixed
non-empty document when no heuristic fired. -/
def tool_call_args (fn : String) (props : List (String × SchemaDict)) : MockJson :=
  (tool_call_args_heuristic fn props).getD
    (.obj [("status", .str "mock_response")])

/-- Concatenation of the text of every part of every content (lines 293-309),
the `prompt_text` the JSON-mode heuristics inspect. -/
def prompt_text (req : GeminiRequest) : String :=
  req.contents.foldl
    (fun acc c => c.parts.foldl (fun acc2 p => acc2 ++ p.text) acc) ""

/-- JSON document for `CustomerDependentActionSchema` (lines 322-325). -/
def doc_customer_dependent : MockJson :=
  .obj [("action", .str "reply"), ("is_customer_dependent", .bool false)]

/-- JSON document for `AgentIntentionProposerSchema` (lines 327-330). -/
def doc_agent_intention : MockJson :=
  .obj [("condition", .str "The user greets"), ("is_agent_intention", .bool false)]

/-- JSON document for `ToolRunningActionSchema` (lines 332-336). -/
def doc_tool_running : MockJson :=
  .obj [("action", .str "reply"), ("rationale", .str "No tool needed"),
        ("is_tool_running_only", .bool false)]

/-- JSON document for `GuidelineContinuousPropositionSchema` (lines 338-341). -/
def doc_continuous : MockJson :=
  .obj [("rationale", .str "Greeting is polite"), ("is_continuous", .bool true)]

/-- JSON document for `RelativeActionSchema` (lines 343-353). -/
def doc_relative_action : MockJson :=
  .obj [("actions", .arr [
    .obj [("index", .str "0"), ("conditions", .arr []),
          ("action", .str "reply"),
          ("needs_rewrite_rationale", .str "No rewrite needed"),
          ("needs_rewrite", .bool false)]])]

/-- JSON document for `ReachableNodesEvaluationSchema` (lines 355-359). -/
def doc_reachable_nodes : MockJson :=
  .obj [("step_action", .str "Do something"),
        ("step_action_completed", .str "true"),
        ("children_conditions", .null)]

/-- JSON document for `CannedResponsePreambleSchema` (lines 361-363). -/
def doc_preamble : MockJson :=
  .obj [("preamble", .str "I verified the information.")]

/-- JSON document for `DisambiguationGuidelineMatchesSchema` (lines 365-372). -/
def doc_disambiguation : MockJson :=
  .obj [("tldr", .str "User wants to do something"),
        ("ambiguity_condition_met", .bool false),
        ("disambiguation_requested", .bool false),
        ("is_ambiguous", .bool false),
        ("guidelines", .arr []),
        ("clarification_action", .null)]

/-- JSON document for `GenericObservationalGuidelineMatchesSchema`
(lines 374-376). -/
def doc_observational : MockJson := .obj [("checks", .arr [])]

/-- Fallback JSON document when no heuristic fired and no schema is
available (lines 445-448). -/
def doc_fallback_note : MockJson :=
  .obj [("status", .str "mock_json_response"),
        ("note", .str "Unidentified schema in prompt")]

/-- The schema-title registry: the `schema_title == ...` arms of the chain at
lines 321-376, in source order. -/
def known_title_doc (title : String) : Option MockJson :=
  if title = "CustomerDependentActionSchema" then some doc_customer_dependent
  else if title = "AgentIntentionProposerSchema" then some doc_agent_intention
  else if title = "ToolRunningActionSchema" then some doc_tool_running
  else if title = "GuidelineContinuousPropositionSchema" then some doc_continuous
  else if title = "RelativeActionSchema" then some doc_relative_action
  else if title = "ReachableNodesEvaluationSchema" then some doc_reachable_nodes
  else if title = "CannedResponsePreambleSchema" then some doc_preamble
  else if title = "DisambiguationGuidelineMatchesSchema" then some doc_disambiguation
  else if title = "GenericObservationalGuidelineMatchesSchema" then
    some doc_observational
  else none

/-- The keyword-substring arms of the chain at lines 377-436, matched against
the lowercased prompt text, in source order. -/
def keyword_doc (p : String) : Option MockJson :=
  let lp := pyLower p
  if strContains lp "is_customer_dependent" then some doc_customer_dependent
  else if strContains lp "is_agent_intention" then some doc_agent_intention
  else if strContains lp "is_tool_running_only" then some doc_tool_running
  else if strContains lp "is_continuous" then some doc_continuous
  else if strContains lp "needs_rewrite" then some doc_relative_action
  else if strContains lp "step_action" then some doc_reachable_nodes
  else if strContains lp "preamble" then some doc_preamble
  else if strContains lp "is_ambiguous" || strContains lp "ambiguity" then
    some doc_disambiguation
  else none

/-- The `schema_title` read at line 318:
`generation_config.get("responseSchema", {}).get("title", "")`. -/
def schema_title (req : GeminiRequest) : String :=
  ((req.generationConfig.responseSchema.getD SchemaDict.empty).title?).getD ""

/-- A JSON-mode response: single candidate whose single text part carries the
serialized document (lines 450-466). -/
def json_response_of (d : MockJson) : GenResponse :=
  { parts := [.jsonText d], finishReason := "STOP" }

/-- The JSON-mode branch of `generate_content` (lines 290-466): the single
if/elif chain tries the schema-title registry, then the prompt-keyword
registry, then structural synthesis from the schema, then the fallback note.
`Except.error ()` models an uncaught exception (empty `enum` inside the
schema). -/
def generate_content_json (req : GeminiRequest) : Except Unit GenResponse :=
  match known_title_doc (schema_title req) with
  | some d => .ok (json_response_of d)
  | none =>
    match keyword_doc (prompt_text req) with
    | some d => .ok (json_response_of d)
    | none =>
      match req.generationConfig.responseSchema with
      | some s =>
          if s.isEmpty then
            -- `if response_schema:` is false for the empty dict.
            .ok (json_response_of doc_fallback_note)
          else
            match generate_mock_from_schema s with
            | some d => .ok (json_response_of d)
            | none => .error ()
      | none => .ok (json_response_of doc_fallback_note)

/-- The default text response (lines 469-485). -/
def default_text_response : GenResponse :=
  { parts := [.text "I understand your request. Here is my response based on the information provided."],
    finishReason := "STOP" }

/-- mock_llm_server.generate_content (lines 123-485).  The tools branch
(lines 135-284) returns a function-call response when the flattened
declaration list is non-empty; a first declaration without a `name` key makes
the Python substring test `"CustomerDependent" in None` raise a `TypeError`
(`Except.error ()`).  When the declaration list is empty (also when `tools`
itself is empty) control falls through to the JSON-mode check at line 286 and
then to the default text response. -/
def generate_content (req : GeminiRequest) : Except Unit GenResponse :=
  match flatten_declarations req.tools with
  | first_fn :: _ =>
      match first_fn.name with
      | none => .error ()
      | some fn =>
          let props := (first_fn.parameters.getD SchemaDict.empty).properties.getD []
          .ok { parts := [.functionCall fn (tool_call_args fn props)],
                finishReason := "STOP" }
  | [] =>
      if strContains req.generationConfig.responseMimeType "application/json" then
        generate_content_json req
      else
        .ok default_text_response

/-! ### Embeddings (mock_llm_server, lines 488-568)

Float entries 0.1 and 0.9 are kept exact as rationals. -/

/-- The batch embedding vector for request index `i` (lines 507-510):
`vec = [0.1] * 3072; vec[i % 3072] = 0.9`. -/
def batchEmbedVec (i : Nat) : List Rat :=
  (List.range 3072).map (fun j => if j = i % 3072 then 0.9 else 0.1)

/-- The fallback / single-embedding vector (lines 518-519 and 543-544):
`vec = [0.1] * 768; vec[0] = 0.9`. -/
def embed_vec_768 : List Rat :=
  (List.range 768).map (fun j => if j = 0 then 0.9 else 0.1)

/-- mock_llm_server.batch_embed_contents (lines 488-522).  The argument is
the parsed request body: `some n` is a body whose `requests` list has `n`
items, `none` is an unparseable body, in which case the `except` clause
returns a single fallback vector. -/
def batch_embed_contents : Option Nat → List (List Rat)
  | some n => (List.range n).map batchEmbedVec
  | none => [embed_vec_768]

/-- Parsed body of the single-embedding / `:predict` endpoint:
`instances n` is a Vertex body whose `instances` list has `n` items,
`gemini` is any other parseable body. -/
inductive EmbedBody where
  | instances : Nat → EmbedBody
  | gemini : EmbedBody

/-- Response of the single-embedding / `:predict` endpoint. -/
inductive EmbedResponse where
  | predictions : List (List Rat) → EmbedResponse
  | embedding : List Rat → EmbedResponse
deriving DecidableEq

/-- mock_llm_server.embed_content (lines 525-568).  `await request.json()` is
not wrapped in any try/except, so an unparseable body (`none`) propagates the
parse error (`Except.error ()`).  For a Vertex `instances` body the same
`vec` is returned once per instance (lines 551-561). -/
def embed_content : Option EmbedBody → Except Unit EmbedResponse
  | none => .error ()
  | some (.instances n) =>
      .ok (.predictions ((List.range n).map (fun _ => embed_vec_768)))
  | some .gemini => .ok (.embedding embed_vec_768)

/-- A vector is a pure constant vector when all its entries are equal. -/
def isConstantVec (v : List Rat) : Prop :=
  ∀ x ∈ v, ∀ y ∈ v, x = y

/-! ### Load shape (simulated-scale/locust_load_test.py, StagedRampUp, lines 250-276) -/

/-- One stage dict of `StagedRampUp.stages`. -/
structure Stage where
  duration : Rat
  users : Nat
  spawn_rate : Nat
deriving DecidableEq

namespace StagedRampUp

/-- The four stages (lines 250-255); `duration` is a cumulative threshold in
seconds of elapsed run time. -/
def stages : List Stage :=
  [⟨30, 10, 5⟩, ⟨60, 50, 10⟩, ⟨90, 100, 20⟩, ⟨120, 10, 5⟩]

/-- StagedRampUp.tick (lines 257-276) with the elapsed run time made the
explicit argument: return `(users, spawn_rate)` of the first stage whose
`duration` exceeds the run time, `none` after all stages complete. -/
def tick (run_time : Rat) : Option (Nat × Nat) :=
  (stages.find? (fun st => run_time < st.duration)).map
    (fun st => (st.users, st.spawn_rate))

/-- Index of the active stage: the first index whose threshold exceeds the
run time (`stages.length` when no stage qualifies). -/
def activeStageIdx (run_time : Rat) : Nat :=
  stages.findIdx (fun st => run_time < st.duration)

end StagedRampUp

/-! ### Chaos state (simulated-scale/mock_ai_server.py) -/

/-- SIMULATION_CONFIG (lines 46-53).  `memory_store` holds the sizes of the
leaked blocks (each appended block is the 1 MiB string `"x" * 1024 * 1024`). -/
structure SimState where
  latency_min : Rat
  latency_max : Rat
  error_rate : Rat
  memory_leak_active : Bool
  cpu_stress_active : Bool
  memory_store : List Nat
deriving DecidableEq, Repr

/-- The initial SIMULATION_CONFIG value, which `reset_simulation` restores. -/
def baselineState : SimState :=
  { latency_min := 0.5, latency_max := 2.0, error_rate := 0.0,
    memory_leak_active := false, cpu_stress_active := false,
    memory_store := [] }

/-- POST /admin/chaos/latency_spike (lines 234-263). -/
def trigger_latency_spike (s : SimState) : SimState :=
  { s with latency_min := 3.0, latency_max := 8.0 }

/-- POST /admin/chaos/memory_leak (lines 265-296). -/
def trigger_memory_leak (s : SimState) : SimState :=
  { s with memory_leak_active := true }

/-- POST /admin/chaos/cpu_spike (lines 298-336). -/
def trigger_cpu_spike (s : SimState) : SimState :=
  { s with cpu_stress_active := true }

/-- POST /admin/reset (lines 338-371): assigns every field of the baseline. -/
def reset_simulation (_ : SimState) : SimState := baselineState

/-- Outcome of a chat request. -/
inductive ChatOutcome where
  | ok : String → ChatOutcome        -- 200 with the echoed response_text
  | unavailable : ChatOutcome        -- 503 injected error
deriving DecidableEq

/-- POST /api/v1/agent/chat (chat_endpoint, lines 76-135), with the random
draw of `random.random()` passed explicitly as `r`: after the latency sleep,
(2) if `r < error_rate` return 503 — before (3), the memory-leak append —
otherwise append a 1 MiB block when leak mode is active and return the echo
response. -/
def chat_endpoint (s : SimState) (r : Rat) (query : String) :
    SimState × ChatOutcome :=
  if r < s.error_rate then
    (s, .unavailable)
  else if s.memory_leak_active then
    ({ s with memory_store := s.memory_store ++ [1024 * 1024] },
     .ok ("Simulated AI response to: " ++ query))
  else
    (s, .ok ("Simulated AI response to: " ++ query))

/-! ### Poll offset update
(healthcare-agent-gke-autopilot/load_testing/locust_load_test.py,
ParlantUser._poll_for_response, lines 99-142) -/

namespace ParlantUser

/-- The `last_offset` update of one poll iteration (lines 121-129), applied to
the list of `e.get("offset", 0)` values of the events in the poll response:
an empty response leaves the offset unchanged (`continue`), a non-empty one
sets it to `max(...) + 1`. -/
def update_last_offset (last_offset : Nat) (offsets : List Nat) : Nat :=
  match offsets with
  | [] => last_offset
  | o :: rest => (rest.foldl max o) + 1

end ParlantUser

/-! ## Theorems -/


/-- The fixed mock response has 28 words. -/
theorem mock_words_length : (pySplit mock_response).length = 28 := by decide

/-- C1 counterexample: with the default configuration `TOKEN_COUNT = 20`,
which is smaller than the 28-word mock response, the emitted sequence does
have length `min(word_count, TOKEN_COUNT) = 20`, but its last chunk carries
`finishReason = none`, not STOP — the source compares the chunk index against
`len(words) - 1`, not against the truncated length, so no emitted chunk
carries STOP. -/
theorem streaming_default_last_chunk_not_stop :
    (stream_chunks 20).length = min ((pySplit mock_response).length) 20 ∧
    20 < (pySplit mock_response).length ∧
    ((stream_chunks 20).getLast?.map StreamChunk.finishReason) = some none := by
  decide

/-- C1 (amended): the emitted chunk sequence has length
`min(word_count, TOKEN_COUNT)`; a chunk carries `finish_reason = STOP` iff
its index is `word_count - 1`, so the last chunk carries STOP exactly when
`TOKEN_COUNT ≥ word_count` and otherwise every chunk has `finish_reason`
null; the stream is always the chunks followed by the distinct `[DONE]`
terminator. -/
theorem streaming_chunk_shape (tc : Nat) :
    (stream_chunks tc).length = min ((pySplit mock_response).length) tc ∧
    (∀ i, ∀ h : i < (stream_chunks tc).length,
      ((stream_chunks tc).get ⟨i, h⟩).finishReason =
        if i = (pySplit mock_response).length - 1 then some "STOP" else none) ∧
    (generate_streaming_response tc).dropLast =
      (stream_chunks tc).map StreamEvent.chunk ∧
    (generate_streaming_response tc).getLast? = some StreamEvent.done ∧
    (∀ c : StreamChunk, StreamEvent.done ≠ StreamEvent.chunk c) := by
  refine ⟨?_, ?_, ?_, ?_, ?_⟩
  · simp [stream_chunks, List.length_take, Nat.min_comm]
  · intro i h
    have hw : (pySplit mock_response).length = 28 := mock_words_length
    have hlen : (stream_chunks tc).length = min ((pySplit mock_response).length) tc := by
      simp [stream_chunks, List.length_take, Nat.min_comm]
    have hi28 : i < 28 := by
      rw [hlen, hw] at h
      omega
    simp only [stream_chunks, List.get_eq_getElem, List.getElem_map, List.getElem_enum,
      List.getElem_take, hw]
    split
    · split
      · omega
      · rfl
    · split
      · rfl
      · omega
  · simp [generate_streaming_response]
  · simp [generate_streaming_response]
  · intro c h
    exact StreamEvent.noConfusion h

/-- C1 witness: at `TOKEN_COUNT = 28` every word is emitted and the last
chunk (index 27) carries STOP. -/
theorem streaming_chunk_shape_witness :
    (stream_chunks 28).length = min ((pySplit mock_response).length) 28 ∧
    ((stream_chunks 28).get ⟨27, by decide⟩).finishReason = some "STOP" := by
  have h := streaming_chunk_shape 28
  refine ⟨h.1, ?_⟩
  have h2 := h.2.1 27 (by decide)
  rw [h2]
  decide

/-- Every inner args value the `log_data` dispatch can pick is a non-empty
object. -/
theorem log_data_dispatch_nonempty (check_props : List (String × SchemaDict))
    (j : MockJson) (h : log_data_dispatch check_props = some j) :
    ∃ l, j = MockJson.obj l ∧ l ≠ [] := by
  unfold log_data_dispatch at h
  split at h
  · exact ⟨_, (Option.some.inj h).symm, by simp [inner_continuous]⟩
  · split at h
    · exact ⟨_, (Option.some.inj h).symm, by simp [inner_customer_dependent]⟩
    · split at h
      · exact ⟨_, (Option.some.inj h).symm, by simp [inner_agent_intention]⟩
      · split at h
        · exact ⟨_, (Option.some.inj h).symm, by simp [inner_tool_running]⟩
        · split at h
          · exact ⟨_, (Option.some.inj h).symm, by simp [inner_actions]⟩
          · split at h
            · exact ⟨_, (Option.some.inj h).symm, by simp [inner_step_action]⟩
            · exact Option.noConfusion h

/-- Every value the `log_data` branch can pick is a non-empty object. -/
theorem log_data_args_nonempty (props : List (String × SchemaDict))
    (j : MockJson) (h : log_data_args props = some j) :
    ∃ l, j = MockJson.obj l ∧ l ≠ [] := by
  unfold log_data_args at h
  cases hl : props.lookup "log_data" with
  | some p =>
      rw [hl] at h
      dsimp only at h
      cases hd : log_data_dispatch (p.properties.getD []) with
      | none =>
          rw [hd] at h
          exact Option.noConfusion h
      | some inner =>
          rw [hd] at h
          exact ⟨_, (Option.some.inj h).symm, by simp⟩
  | none =>
      rw [hl] at h
      dsimp only at h
      exact log_data_dispatch_nonempty _ _ h

/-- Every value the args heuristic chain can pick is a non-empty object. -/
theorem tool_call_args_heuristic_nonempty (fn : String)
    (props : List (String × SchemaDict)) (j : MockJson)
    (h : tool_call_args_heuristic fn props = some j) :
    ∃ l, j = MockJson.obj l ∧ l ≠ [] := by
  unfold tool_call_args_heuristic at h
  split at h
  · exact ⟨_, (Option.some.inj h).symm, by simp [inner_customer_dependent]⟩
  · split at h
    · exact ⟨_, (Option.some.inj h).symm, by simp [guideline_args]⟩
    · split at h
      · exact log_data_args_nonempty _ _ h
      · split at h
        · exact ⟨_, (Option.some.inj h).symm, by simp⟩
        · exact Option.noConfusion h

/-- The synthesized args are always a non-empty object: either a non-empty
heuristic value or the fixed fallback `{"status": "mock_response"}`. -/
theorem tool_call_args_nonempty (fn : String)
    (props : List (String × SchemaDict)) :
    ∃ l, tool_call_args fn props = MockJson.obj l ∧ l ≠ [] := by
  unfold tool_call_args
  cases hh : tool_call_args_heuristic fn props with
  | none => exact ⟨_, rfl, by simp⟩
  | some j =>
      obtain ⟨l, rfl, hl⟩ := tool_call_args_heuristic_nonempty fn props j hh
      exact ⟨l, rfl, hl⟩

/-- C2 counterexample: a request whose tools list is non-empty but whose tools
declare no functions (`tools = [{}]`) falls through the tools branch and
returns the default plain-text response, not a function-call response. -/
theorem tools_without_declarations_yield_text :
    ({ contents := [], generationConfig := ⟨"", none⟩,
       tools := [⟨[]⟩] } : GeminiRequest).tools ≠ [] ∧
    generate_content
      { contents := [], generationConfig := ⟨"", none⟩, tools := [⟨[]⟩] } =
      .ok default_text_response ∧
    default_text_response.parts =
      [.text "I understand your request. Here is my response based on the information provided."] := by
  refine ⟨by simp, rfl, rfl⟩

/-- C2 (amended): for every request whose flattened function-declaration list
is non-empty and whose first declaration carries a name, the response is a
function-call response: a single part with a functionCall named after the
first declared function and a non-empty args object (`{"status":
"mock_response"}` when no heuristic matches).  With an empty declaration list
the tools branch is skipped even when `tools` itself is non-empty. -/
theorem tools_with_declaration_function_call (req : GeminiRequest)
    (fd : FunctionDecl) (rest : List FunctionDecl) (fn : String)
    (hfd : flatten_declarations req.tools = fd :: rest)
    (hname : fd.name = some fn) :
    ∃ l, generate_content req =
        .ok { parts := [.functionCall fn (MockJson.obj l)],
              finishReason := "STOP" } ∧
      l ≠ [] ∧
      MockJson.obj l =
        tool_call_args fn
          ((fd.parameters.getD SchemaDict.empty).properties.getD []) ∧
      (∀ f p, tool_call_args_heuristic f p = (none : Option MockJson) →
        tool_call_args f p = MockJson.obj [("status", MockJson.str "mock_response")]) := by
  obtain ⟨l, hl, hlne⟩ :=
    tool_call_args_nonempty fn
      ((fd.parameters.getD SchemaDict.empty).properties.getD [])
  refine ⟨l, ?_, hlne, hl.symm, ?_⟩
  · simp only [generate_content, hfd, hname, hl]
  · intro f p hnone
    unfold tool_call_args
    rw [hnone]
    rfl

/-- C2 witness: a request with a single `GuidelineProposer` declaration gets
a function-call response with the guideline args. -/
theorem tools_with_declaration_function_call_witness :
    generate_content
      { contents := [], generationConfig := ⟨"", none⟩,
        tools := [⟨[{ name := some "GuidelineProposer", parameters := none }]⟩] } =
      .ok { parts := [.functionCall "GuidelineProposer" guideline_args],
            finishReason := "STOP" } := by
  obtain ⟨l, hresp, -, hargs, -⟩ :=
    tools_with_declaration_function_call
      { contents := [], generationConfig := ⟨"", none⟩,
        tools := [⟨[{ name := some "GuidelineProposer", parameters := none }]⟩] }
      { name := some "GuidelineProposer", parameters := none } [] "GuidelineProposer"
      rfl rfl
  rw [hresp]
  have : MockJson.obj l = guideline_args := by
    rw [hargs]
    rfl
  rw [this]

/-- Length of a batch vector. -/
theorem batchEmbedVec_length (i : Nat) : (batchEmbedVec i).length = 3072 := by
  simp [batchEmbedVec]

/-- Entry `j` of batch vector `i`: 0.9 at position `i % 3072`, 0.1 elsewhere. -/
theorem batchEmbedVec_getD (i j : Nat) (h : j < 3072) :
    (batchEmbedVec i).getD j 0 = if j = i % 3072 then 0.9 else 0.1 := by
  rw [List.getD_eq_getElem?_getD]
  unfold batchEmbedVec
  rw [List.getElem?_map, List.getElem?_range h]
  rfl

/-- Distinct request indices below the dimension give distinct batch
vectors. -/
theorem batchEmbedVec_injOn (a b : Nat) (ha : a < 3072) (hb : b < 3072)
    (hne : a ≠ b) : batchEmbedVec a ≠ batchEmbedVec b := by
  intro hEq
  have h1 := batchEmbedVec_getD a a ha
  have h2 := batchEmbedVec_getD b a ha
  rw [Nat.mod_eq_of_lt ha, if_pos rfl] at h1
  rw [Nat.mod_eq_of_lt hb, if_neg hne] at h2
  rw [hEq, h2] at h1
  norm_num at h1

/-- No batch vector is a pure constant vector. -/
theorem batchEmbedVec_not_constant (i : Nat) : ¬ isConstantVec (batchEmbedVec i) := by
  intro hc
  have hm : i % 3072 < 3072 := Nat.mod_lt _ (by norm_num)
  have h9 : (0.9 : Rat) ∈ batchEmbedVec i := by
    unfold batchEmbedVec
    exact List.mem_map.mpr ⟨i % 3072, List.mem_range.mpr hm, by simp⟩
  have h1 : (0.1 : Rat) ∈ batchEmbedVec i := by
    unfold batchEmbedVec
    by_cases h0 : i % 3072 = 0
    · exact List.mem_map.mpr ⟨1, List.mem_range.mpr (by norm_num),
        by simp [h0]⟩
    · refine List.mem_map.mpr ⟨0, List.mem_range.mpr (by norm_num), ?_⟩
      show (if 0 = i % 3072 then (0.9 : Rat) else 0.1) = 0.1
      exact if_neg fun hh => h0 hh.symm
  have := hc _ h9 _ h1
  norm_num at this

/-- The fallback vector is not a pure constant vector either. -/
theorem embed_vec_768_not_constant : ¬ isConstantVec embed_vec_768 := by
  intro hc
  have h9 : (0.9 : Rat) ∈ embed_vec_768 := by
    unfold embed_vec_768
    exact List.mem_map.mpr ⟨0, List.mem_range.mpr (by norm_num), by simp⟩
  have h1 : (0.1 : Rat) ∈ embed_vec_768 := by
    unfold embed_vec_768
    exact List.mem_map.mpr ⟨1, List.mem_range.mpr (by norm_num), by simp⟩
  have := hc _ h9 _ h1
  norm_num at this

/-- C3 counterexample: a `:predict` request with two instances receives two
identical vectors, so the per-instance vectors of the `:predict` embedding
endpoint are not pairwise distinct. -/
theorem predict_vectors_not_distinct :
    embed_content (some (.instances 2)) =
      .ok (.predictions [embed_vec_768, embed_vec_768]) ∧
    ¬ List.Pairwise (· ≠ ·) [embed_vec_768, embed_vec_768] := by
  constructor
  · rfl
  · intro hp
    exact (List.pairwise_cons.mp hp).1 _ (by simp) rfl

/-- C3 (amended): a batch of `N` content items gets `N` vectors of dimension
3072, none of them constant, and pairwise distinct whenever `N ≤ 3072`
(vector `i` is perturbed at coordinate `i % 3072`, so indices 3072 apart
collide); the `:predict` endpoint returns one 768-dimensional non-constant
vector per instance, but always the same vector, so batch distinctness does
not extend to it. -/
theorem batch_embeddings_shape (n : Nat) (h : n ≤ 3072) :
    (batch_embed_contents (some n)).length = n ∧
    (∀ v ∈ batch_embed_contents (some n), v.length = 3072 ∧ ¬ isConstantVec v) ∧
    List.Pairwise (· ≠ ·) (batch_embed_contents (some n)) ∧
    (∀ m : Nat, ∃ vs, embed_content (some (.instances m)) = .ok (.predictions vs) ∧
      vs.length = m ∧ ∀ v ∈ vs, v = embed_vec_768) ∧
    embed_vec_768.length = 768 ∧ ¬ isConstantVec embed_vec_768 := by
  refine ⟨by simp [batch_embed_contents], ?_, ?_, ?_, by simp [embed_vec_768],
    embed_vec_768_not_constant⟩
  · intro v hv
    obtain ⟨i, -, rfl⟩ := List.mem_map.mp hv
    exact ⟨batchEmbedVec_length i, batchEmbedVec_not_constant i⟩
  · unfold batch_embed_contents
    rw [List.pairwise_map]
    refine List.Pairwise.imp_of_mem ?_ (List.pairwise_lt_range n)
    intro a b hma hmb hab
    have ha : a < n := List.mem_range.mp hma
    have hb : b < n := List.mem_range.mp hmb
    exact batchEmbedVec_injOn a b (lt_of_lt_of_le ha h) (lt_of_lt_of_le hb h)
      (Nat.ne_of_lt hab)
  · intro m
    refine ⟨_, rfl, by simp, ?_⟩
    intro v hv
    obtain ⟨a, -, hva⟩ := List.mem_map.mp hv
    exact hva.symm

/-- C3 witness: a batch of 2 items gets 2 pairwise-distinct vectors. -/
theorem batch_embeddings_shape_witness :
    (batch_embed_contents (some 2)).length = 2 ∧
    List.Pairwise (· ≠ ·) (batch_embed_contents (some 2)) := by
  have h := batch_embeddings_shape 2 (by norm_num)
  exact ⟨h.1, h.2.2.1⟩

/-- The synthesized keys of an object are exactly the declared property
names, in declaration order. -/
theorem genMockProps_keys (props : List (String × SchemaDict))
    (vs : List (String × MockJson)) (h : genMockProps props = some vs) :
    vs.map Prod.fst = props.map Prod.fst := by
  induction props generalizing vs with
  | nil =>
      injection h with h2
      subst h2
      rfl
  | cons p rest ih =>
      obtain ⟨k, s⟩ := p
      unfold genMockProps at h
      cases hv : generate_mock_from_schema s with
      | none =>
          rw [hv] at h
          exact Option.noConfusion h
      | some v =>
          rw [hv] at h
          cases hvs : genMockProps rest with
          | none =>
              rw [hvs] at h
              exact Option.noConfusion h
          | some vs2 =>
              rw [hvs] at h
              injection h with h2
              subst h2
              simp [ih vs2 hvs]

/-- C4 counterexample: a schema with the unrecognized type string `"FOO"`
synthesizes the JSON null value (Python `None`), not an empty object. -/
theorem unknown_schema_type_yields_null :
    generate_mock_from_schema (.mk (some "FOO") none none none none) =
      some .null ∧
    (some MockJson.null ≠ some (MockJson.obj [])) :=
  ⟨rfl, fun h => MockJson.noConfusion (Option.some.inj h)⟩

/-- C4 (amended): structural synthesis is deterministic; an absent/empty
schema yields an empty object; an absent type defaults to OBJECT; OBJECT
yields a mapping over the declared properties in declaration order (keys
exactly the declared names); ARRAY yields a one-element sequence from the
item schema; STRING yields the first value of a declared non-empty enum,
else the fixed placeholder; BOOLEAN/INTEGER/NUMBER yield `false`/`1`/`1.0`;
a schema with an unrecognized type string yields null. -/
theorem schema_synthesis_cases (t? : Option String)
    (props? : Option (List (String × SchemaDict))) (items? : Option SchemaDict)
    (enum? : Option (List String)) (title? : Option String) :
    (generate_mock_from_schema (.mk t? props? items? enum? title?) =
       generate_mock_from_schema (.mk t? props? items? enum? title?)) ∧
    ((SchemaDict.mk t? props? items? enum? title?).isEmpty = true →
       generate_mock_from_schema (.mk t? props? items? enum? title?) =
         some (.obj [])) ∧
    (pyUpper (t?.getD "OBJECT") = "OBJECT" →
       generate_mock_from_schema (.mk t? props? items? enum? title?) =
         (genMockProps (props?.getD [])).map MockJson.obj ∧
       ∀ vs, genMockProps (props?.getD []) = some vs →
         vs.map Prod.fst = (props?.getD []).map Prod.fst) ∧
    (pyUpper (t?.getD "OBJECT") = "ARRAY" →
       generate_mock_from_schema (.mk t? props? items? enum? title?) =
         (generate_mock_from_schema (items?.getD SchemaDict.empty)).map
           (fun v => MockJson.arr [v])) ∧
    (pyUpper (t?.getD "OBJECT") = "STRING" →
       (∀ e es, enum? = some (e :: es) →
         generate_mock_from_schema (.mk t? props? items? enum? title?) =
           some (.str e)) ∧
       (enum? = none →
         generate_mock_from_schema (.mk t? props? items? enum? title?) =
           some (.str "mock_string"))) ∧
    (pyUpper (t?.getD "OBJECT") = "BOOLEAN" →
       generate_mock_from_schema (.mk t? props? items? enum? title?) =
         some (.bool false)) ∧
    (pyUpper (t?.getD "OBJECT") = "INTEGER" →
       generate_mock_from_schema (.mk t? props? items? enum? title?) =
         some (.int 1)) ∧
    (pyUpper (t?.getD "OBJECT") = "NUMBER" →
       generate_mock_from_schema (.mk t? props? items? enum? title?) =
         some (.num 1)) ∧
    (pyUpper (t?.getD "OBJECT") ∉
       (["OBJECT", "ARRAY", "STRING", "BOOLEAN", "INTEGER", "NUMBER"] :
         List String) →
       generate_mock_from_schema (.mk t? props? items? enum? title?) =
         some .null) := by
  refine ⟨rfl, ?_, ?_, ?_, ?_, ?_, ?_, ?_, ?_⟩
  · intro he
    conv_lhs => unfold generate_mock_from_schema
    rw [if_pos he]
  · intro htype
    refine ⟨?_, fun vs h => genMockProps_keys _ vs h⟩
    cases t? with
    | none =>
        cases props? with
        | some props =>
            conv_lhs => unfold generate_mock_from_schema
            rw [if_neg (by simp [SchemaDict.isEmpty]), if_pos (by decide)]
            rfl
        | none =>
            by_cases he :
              (SchemaDict.mk none none items? enum? title?).isEmpty = true
            · conv_lhs => unfold generate_mock_from_schema
              rw [if_pos he]
              rfl
            · conv_lhs => unfold generate_mock_from_schema
              rw [if_neg he, if_pos (by decide)]
              rfl
    | some t =>
        cases props? with
        | some props =>
            conv_lhs => unfold generate_mock_from_schema
            rw [if_neg (by simp [SchemaDict.isEmpty]), if_pos htype]
            rfl
        | none =>
            conv_lhs => unfold generate_mock_from_schema
            rw [if_neg (by simp [SchemaDict.isEmpty]), if_pos htype]
            rfl
  · intro htype
    cases t? with
    | none => exact absurd htype (by decide)
    | some t =>
        cases items? with
        | some it =>
            conv_lhs => unfold generate_mock_from_schema
            rw [if_neg (by simp [SchemaDict.isEmpty]),
              if_neg (by rw [htype]; decide), if_pos htype]
            rfl
        | none =>
            conv_lhs => unfold generate_mock_from_schema
            rw [if_neg (by simp [SchemaDict.isEmpty]),
              if_neg (by rw [htype]; decide), if_pos htype]
            rfl
  · intro htype
    cases t? with
    | none => exact absurd htype (by decide)
    | some t =>
        constructor
        · intro e es henum
          subst henum
          conv_lhs => unfold generate_mock_from_schema
          rw [if_neg (by simp [SchemaDict.isEmpty]),
            if_neg (by rw [htype]; decide), if_neg (by rw [htype]; decide),
            if_pos htype]
        · intro henum
          subst henum
          conv_lhs => unfold generate_mock_from_schema
          rw [if_neg (by simp [SchemaDict.isEmpty]),
            if_neg (by rw [htype]; decide), if_neg (by rw [htype]; decide),
            if_pos htype]
  · intro htype
    cases t? with
    | none => exact absurd htype (by decide)
    | some t =>
        conv_lhs => unfold generate_mock_from_schema
        rw [if_neg (by simp [SchemaDict.isEmpty]),
          if_neg (by rw [htype]; decide), if_neg (by rw [htype]; decide),
          if_neg (by rw [htype]; decide), if_pos htype]
  · intro htype
    cases t? with
    | none => exact absurd htype (by decide)
    | some t =>
        conv_lhs => unfold generate_mock_from_schema
        rw [if_neg (by simp [SchemaDict.isEmpty]),
          if_neg (by rw [htype]; decide), if_neg (by rw [htype]; decide),
          if_neg (by rw [htype]; decide), if_neg (by rw [htype]; decide),
          if_pos htype]
  · intro htype
    cases t? with
    | none => exact absurd htype (by decide)
    | some t =>
        conv_lhs => unfold generate_mock_from_schema
        rw [if_neg (by simp [SchemaDict.isEmpty]),
          if_neg (by rw [htype]; decide), if_neg (by rw [htype]; decide),
          if_neg (by rw [htype]; decide), if_neg (by rw [htype]; decide),
          if_neg (by rw [htype]; decide), if_pos htype]
  · intro hnot
    cases t? with
    | none => exact absurd (by decide) hnot
    | some t =>
        conv_lhs => unfold generate_mock_from_schema
        rw [if_neg (by simp [SchemaDict.isEmpty]),
          if_neg (fun hh => hnot (by rw [hh]; decide)),
          if_neg (fun hh => hnot (by rw [hh]; decide)),
          if_neg (fun hh => hnot (by rw [hh]; decide)),
          if_neg (fun hh => hnot (by rw [hh]; decide)),
          if_neg (fun hh => hnot (by rw [hh]; decide)),
          if_neg (fun hh => hnot (by rw [hh]; decide))]

/-- C4 witness: a STRING schema with enum `["A", "B"]` synthesizes `"A"`. -/
theorem schema_synthesis_cases_witness :
    generate_mock_from_schema
      (.mk (some "STRING") none none (some ["A", "B"]) none) =
      some (.str "A") := by
  have h :=
    schema_synthesis_cases (some "STRING") none none (some ["A", "B"]) none
  exact (h.2.2.2.2.1 (by decide)).1 "A" ["B"] rfl

/-- Closed form of `StagedRampUp.tick` on the four concrete stages. -/
theorem StagedRampUp.tick_eq (t : Rat) :
    StagedRampUp.tick t =
      if t < 30 then some (10, 5)
      else if t < 60 then some (50, 10)
      else if t < 90 then some (100, 20)
      else if t < 120 then some (10, 5)
      else none := by
  unfold StagedRampUp.tick StagedRampUp.stages
  split_ifs with h1 h2 h3 h4 <;>
    simp_all [List.find?_cons_of_pos, List.find?_cons_of_neg, not_lt]

/-- Closed form of the active stage index. -/
theorem StagedRampUp.activeStageIdx_eq (t : Rat) :
    StagedRampUp.activeStageIdx t =
      if t < 30 then 0
      else if t < 60 then 1
      else if t < 90 then 2
      else if t < 120 then 3
      else 4 := by
  unfold StagedRampUp.activeStageIdx StagedRampUp.stages
  split_ifs with h1 h2 h3 h4 <;>
    simp_all [List.findIdx_cons, Bool.cond_decide] <;>
    split_ifs <;> first | rfl | linarith

/-- C5: for every elapsed time below the final threshold (120 s), `tick`
returns the `(users, spawn_rate)` pair of exactly one stage, namely the first
stage whose threshold exceeds the elapsed time (every earlier stage has
threshold at most the elapsed time); for every elapsed time at or beyond the
final threshold it returns the terminate signal `none`; and the active stage
index is monotone non-decreasing in the elapsed time. -/
theorem load_shape_tick (t u : Rat) (htu : t ≤ u) :
    (t < 120 →
      ∃ st : Stage, StagedRampUp.stages.get? (StagedRampUp.activeStageIdx t) =
          some st ∧
        StagedRampUp.tick t = some (st.users, st.spawn_rate) ∧
        t < st.duration ∧
        ∀ j, j < StagedRampUp.activeStageIdx t →
          ∀ st2, StagedRampUp.stages.get? j = some st2 → ¬ t < st2.duration) ∧
    (120 ≤ t → StagedRampUp.tick t = none) ∧
    StagedRampUp.activeStageIdx t ≤ StagedRampUp.activeStageIdx u := by
  refine ⟨?_, ?_, ?_⟩
  · intro ht
    rw [StagedRampUp.tick_eq, StagedRampUp.activeStageIdx_eq]
    split_ifs with h1 h2 h3
    · refine ⟨⟨30, 10, 5⟩, rfl, rfl, h1, ?_⟩
      intro j hj
      exact absurd hj (Nat.not_lt_zero j)
    · refine ⟨⟨60, 50, 10⟩, rfl, rfl, h2, ?_⟩
      intro j hj st2 hst2
      interval_cases j
      · injection hst2 with hh
        subst hh
        exact h1
    · refine ⟨⟨90, 100, 20⟩, rfl, rfl, h3, ?_⟩
      intro j hj st2 hst2
      interval_cases j
      · injection hst2 with hh
        subst hh
        exact h1
      · injection hst2 with hh
        subst hh
        exact h2
    · -- split_ifs discharges the fourth condition with `ht` itself
      refine ⟨⟨120, 10, 5⟩, rfl, rfl, ht, ?_⟩
      intro j hj st2 hst2
      interval_cases j
      · injection hst2 with hh
        subst hh
        exact h1
      · injection hst2 with hh
        subst hh
        exact h2
      · injection hst2 with hh
        subst hh
        exact h3
  · intro ht
    rw [StagedRampUp.tick_eq]
    split_ifs <;> first | rfl | linarith
  · rw [StagedRampUp.activeStageIdx_eq t, StagedRampUp.activeStageIdx_eq u]
    split_ifs <;> first | (exfalso; linarith) | norm_num

/-- C5 witness: at 45 s the second stage (50 users, 10/s) is active; at 130 s
the scheduler terminates; the active index at 45 s is at most the one at
100 s. -/
theorem load_shape_tick_witness :
    StagedRampUp.tick 45 = some (50, 10) ∧
    StagedRampUp.tick 130 = none ∧
    StagedRampUp.activeStageIdx 45 ≤ StagedRampUp.activeStageIdx 100 := by
  have h45 := load_shape_tick 45 100 (by norm_num)
  have h130 := load_shape_tick 130 130 (le_refl 130)
  obtain ⟨st, hget, htick, -, -⟩ := h45.1 (by norm_num)
  have hidx : StagedRampUp.activeStageIdx 45 = 1 := by decide
  rw [hidx] at hget
  have hst : st = ⟨60, 50, 10⟩ := (Option.some.inj hget).symm
  refine ⟨?_, h130.2.1 (by norm_num), h45.2.2⟩
  rw [htick, hst]


/-- C6 counterexample: applying reset and the latency-spike activation to the
baseline state in the two orders yields different final states (latency
last: spiked; reset last: baseline), so the admin operations are not
order-independent. -/
theorem reset_latency_spike_order_dependent :
    trigger_latency_spike (reset_simulation baselineState) ≠
      reset_simulation (trigger_latency_spike baselineState) := by
  intro h
  have hmin := congrArg SimState.latency_min h
  norm_num [trigger_latency_spike, reset_simulation, baselineState] at hmin

/-- C6 (amended): every admin chaos operation is idempotent; the three
activation operations are pairwise order-independent; and reset always
restores the fixed baseline (latency 0.5-2.0, error rate 0, both flags
false, leak buffer cleared) regardless of the prior state — hence reset does
not commute with the activation operations. -/
theorem admin_ops_idempotent_reset_baseline (s : SimState) :
    trigger_latency_spike (trigger_latency_spike s) =
      trigger_latency_spike s ∧
    trigger_memory_leak (trigger_memory_leak s) = trigger_memory_leak s ∧
    trigger_cpu_spike (trigger_cpu_spike s) = trigger_cpu_spike s ∧
    reset_simulation (reset_simulation s) = reset_simulation s ∧
    trigger_memory_leak (trigger_latency_spike s) =
      trigger_latency_spike (trigger_memory_leak s) ∧
    trigger_cpu_spike (trigger_latency_spike s) =
      trigger_latency_spike (trigger_cpu_spike s) ∧
    trigger_cpu_spike (trigger_memory_leak s) =
      trigger_memory_leak (trigger_cpu_spike s) ∧
    reset_simulation s = baselineState :=
  ⟨rfl, rfl, rfl, rfl, rfl, rfl, rfl, rfl⟩

/-- Two distinct registry documents are indeed distinct. -/
theorem doc_customer_dependent_ne_agent_intention :
    doc_customer_dependent ≠ doc_agent_intention := by
  intro h
  unfold doc_customer_dependent doc_agent_intention at h
  injection h with h1
  injection h1 with h2 h3
  injection h2 with h4 h5
  exact absurd h4 (by decide)

/-- The customer-dependent document is not the empty object. -/
theorem doc_customer_dependent_ne_empty_obj :
    doc_customer_dependent ≠ MockJson.obj [] := by
  intro h
  unfold doc_customer_dependent at h
  injection h with h1
  exact List.noConfusion h1

/-- C7 counterexample: two JSON-mode requests carrying the same non-empty
responseSchema title `"FooSchema"` (not in the known registry) but different
prompt texts receive different synthesized documents, selected by keyword
matching on the prompt — not by the title, and not by structural synthesis
(which would give the empty object for this schema). -/
theorem unknown_title_uses_keyword_match :
    generate_content
      { contents := [⟨[⟨"check is_customer_dependent now"⟩]⟩],
        generationConfig :=
          ⟨"application/json",
           some (.mk none none none none (some "FooSchema"))⟩,
        tools := [] } =
      .ok (json_response_of doc_customer_dependent) ∧
    generate_content
      { contents := [⟨[⟨"check is_agent_intention now"⟩]⟩],
        generationConfig :=
          ⟨"application/json",
           some (.mk none none none none (some "FooSchema"))⟩,
        tools := [] } =
      .ok (json_response_of doc_agent_intention) ∧
    schema_title
      { contents := [⟨[⟨"check is_customer_dependent now"⟩]⟩],
        generationConfig :=
          ⟨"application/json",
           some (.mk none none none none (some "FooSchema"))⟩,
        tools := [] } = "FooSchema" ∧
    doc_customer_dependent ≠ doc_agent_intention ∧
    generate_mock_from_schema (.mk none none none none (some "FooSchema")) =
      some (.obj []) ∧
    doc_customer_dependent ≠ MockJson.obj [] := by
  refine ⟨rfl, rfl, rfl, doc_customer_dependent_ne_agent_intention, rfl,
    doc_customer_dependent_ne_empty_obj⟩

/-- C7 (amended): in JSON mode (no usable function declarations, JSON mime
type), a request whose responseSchema title is one of the nine known registry
titles is answered by the registry document for that title, independent of
the prompt text; keyword matching over the prompt applies exactly when the
title (possibly non-empty) is not in the registry. -/
theorem known_title_chosen_by_title (req : GeminiRequest) (d : MockJson)
    (hnotools : flatten_declarations req.tools = [])
    (hjson : strContains req.generationConfig.responseMimeType
      "application/json" = true) :
    (known_title_doc (schema_title req) = some d →
       generate_content req = .ok (json_response_of d)) ∧
    (known_title_doc (schema_title req) = none →
       keyword_doc (prompt_text req) = some d →
       generate_content req = .ok (json_response_of d)) := by
  constructor
  · intro htitle
    unfold generate_content
    rw [hnotools]
    dsimp only
    rw [if_pos hjson]
    unfold generate_content_json
    rw [htitle]
  · intro htitle hkw
    unfold generate_content
    rw [hnotools]
    dsimp only
    rw [if_pos hjson]
    unfold generate_content_json
    rw [htitle, hkw]

/-- C7 witness: a request with the known title
`CannedResponsePreambleSchema` and a conflicting keyword prompt gets the
preamble document chosen by the title. -/
theorem known_title_chosen_by_title_witness :
    generate_content
      { contents := [⟨[⟨"mentions is_agent_intention"⟩]⟩],
        generationConfig :=
          ⟨"application/json",
           some (.mk none none none none
             (some "CannedResponsePreambleSchema"))⟩,
        tools := [] } =
      .ok (json_response_of doc_preamble) := by
  have h := known_title_chosen_by_title
    { contents := [⟨[⟨"mentions is_agent_intention"⟩]⟩],
      generationConfig :=
        ⟨"application/json",
         some (.mk none none none none
           (some "CannedResponsePreambleSchema"))⟩,
      tools := [] } doc_preamble rfl rfl
  exact h.1 rfl

/-- C8 counterexample: for an unparseable request body, the batch endpoint
degrades to one fallback vector, but the single-embedding/`:predict` handler
has no try/except around `request.json()` and propagates the parse error
instead of returning a fallback vector. -/
theorem embed_parse_error_propagates :
    embed_content none = .error () ∧
    batch_embed_contents none = [embed_vec_768] :=
  ⟨rfl, rfl⟩

/-- C8 (amended): an unparseable batch-embedding body degrades to a
successful response with exactly one fallback dense (non-constant)
768-dimensional vector; the single-embedding/`:predict` endpoint does not
share this degraded mode and propagates the parse error. -/
theorem malformed_embed_degradation :
    batch_embed_contents none = [embed_vec_768] ∧
    (batch_embed_contents none).length = 1 ∧
    embed_vec_768.length = 768 ∧
    ¬ isConstantVec embed_vec_768 ∧
    embed_content none = .error () :=
  ⟨rfl, rfl, by simp [embed_vec_768], embed_vec_768_not_constant, rfl⟩

/-- `foldl max` dominates the seed and every element. -/
theorem le_foldl_max (o : Nat) (l : List Nat) :
    o ≤ l.foldl max o ∧ ∀ x ∈ l, x ≤ l.foldl max o := by
  induction l generalizing o with
  | nil => exact ⟨le_refl o, by simp⟩
  | cons a t ih =>
      refine ⟨le_trans (le_max_left o a) (ih (max o a)).1, ?_⟩
      intro x hx
      rcases List.mem_cons.mp hx with rfl | hx2
      · exact le_trans (le_max_right o x) (ih (max o x)).1
      · exact (ih (max o a)).2 x hx2

/-- `foldl max` returns the seed or an element of the list. -/
theorem foldl_max_mem : ∀ (l : List Nat) (o : Nat),
    l.foldl max o = o ∨ l.foldl max o ∈ l
  | [], _ => Or.inl rfl
  | a :: t, o => by
      rcases foldl_max_mem t (max o a) with h | h
      · rcases Nat.le_total o a with hoa | hao
        · right
          rw [List.foldl_cons, h, Nat.max_eq_right hoa]
          exact List.mem_cons_self a t
        · left
          rw [List.foldl_cons, h, Nat.max_eq_left hao]
      · right
        rw [List.foldl_cons]
        exact List.mem_cons_of_mem a h

/-- C9: provided every event offset in the poll response is at least the
requested `min_offset` (which the poller sets to the current `last_offset`),
the updated `last_offset` never decreases: an empty response leaves it
unchanged, and a non-empty response sets it to one past the maximum offset
seen, which strictly exceeds the previous value. -/
theorem poll_offset_monotone (last : Nat) (offs : List Nat)
    (hmin : ∀ o ∈ offs, last ≤ o) :
    last ≤ ParlantUser.update_last_offset last offs ∧
    (offs ≠ [] →
      ParlantUser.update_last_offset last offs = offs.foldl max 0 + 1 ∧
      (∀ x ∈ offs, x ≤ offs.foldl max 0) ∧
      offs.foldl max 0 ∈ offs ∧
      last < ParlantUser.update_last_offset last offs) := by
  cases offs with
  | nil => exact ⟨le_refl last, fun h => absurd rfl h⟩
  | cons o rest =>
      have hfold : (o :: rest).foldl max 0 = rest.foldl max o := by
        rw [List.foldl_cons, Nat.zero_max]
      have h1 := le_foldl_max o rest
      have hlast : last ≤ o := hmin o (List.mem_cons_self o rest)
      constructor
      · show last ≤ rest.foldl max o + 1
        exact le_trans (le_trans hlast h1.1) (Nat.le_succ _)
      · intro hne
        refine ⟨by rw [hfold]; rfl, ?_, ?_, ?_⟩
        · intro x hx
          rw [hfold]
          rcases List.mem_cons.mp hx with rfl | hx2
          · exact h1.1
          · exact h1.2 x hx2
        · rw [hfold]
          rcases foldl_max_mem rest o with h | h
          · rw [h]
            exact List.mem_cons_self o rest
          · exact List.mem_cons_of_mem o h
        · show last < rest.foldl max o + 1
          exact Nat.lt_succ_of_le (le_trans hlast h1.1)

/-- C9 witness: with `last_offset = 3` and response offsets `[3, 7, 9]`, the
offset advances to 10, which is not below 3. -/
theorem poll_offset_monotone_witness :
    3 ≤ ParlantUser.update_last_offset 3 [3, 7, 9] ∧
    ParlantUser.update_last_offset 3 [3, 7, 9] = 10 := by
  have h := poll_offset_monotone 3 [3, 7, 9] (by decide)
  refine ⟨h.1, ?_⟩
  rw [(h.2 (by simp)).1]
  decide

/-- C10: a chat request that takes the injected-error branch (`r <
error_rate`) returns the 503 outcome and leaves the simulation state
unchanged — in particular the leak buffer is not appended to, even when
`memory_leak_active` is true, because the error check precedes the leak
append. -/
theorem injected_error_leaves_state_unchanged (s : SimState) (r : Rat)
    (q : String) (herr : r < s.error_rate) :
    chat_endpoint s r q = (s, .unavailable) := by
  unfold chat_endpoint
  rw [if_pos herr]

/-- C10 witness: with error rate 1 and leak mode active, the error branch at
draw 0 leaves the state (leak buffer included) unchanged. -/
theorem injected_error_leaves_state_unchanged_witness :
    chat_endpoint
      { latency_min := 0.5, latency_max := 2.0, error_rate := 1,
        memory_leak_active := true, cpu_stress_active := false,
        memory_store := [] } 0 "hello" =
      ({ latency_min := 0.5, latency_max := 2.0, error_rate := 1,
         memory_leak_active := true, cpu_stress_active := false,
         memory_store := [] }, .unavailable) :=
  injected_error_leaves_state_unchanged
    { latency_min := 0.5, latency_max := 2.0, error_rate := 1,
      memory_leak_active := true, cpu_stress_active := false,
      memory_store := [] } 0 "hello" (by norm_num)

end ProdDeploy
